import Mathlib

/-!
# Verification of the Excel comparison core

Shallow embedding of the comparison engine of the Excel File Comparison
Tool (`ExcelComparator` in the repository's main script): the value
classifier (`isPercentageCell`, `getNumericValue`, `formatValue`), the
cell differ (`valuesAreDifferent`, `extractPercentageValue`), the
structure validator (`validateStructures`), the sheet aligner
(the `compareFiles` inner loop, here `sheetDifferences`) and the report
renderer (`createComparisonDataSingleCell` / `createComparisonDataMultiCell`
and the per-cell `createValueComparison*` helpers).

Modelling conventions:
* JS numbers are modelled as exact rationals `ℚ`, extended with a `nan`
  element (`JSNumber`) because `parseFloat("")` — reachable through the
  `!isNaN(x)`-guarded branches for inputs such as `"%"` — yields `NaN`.
  Binary floating-point rounding noise is not modelled.
* Rational arithmetic is phrased through `Rat.divInt` on numerators and
  denominators (`qAdd`, `qSub`, `qMul`, `qNeg`) so that every definition
  evaluates inside the kernel; the bridge lemmas `qAdd_eq` … identify
  them with the ordinary field operations of `ℚ`.
* JS string-to-number conversion (`Number`, and `parseFloat` under a
  `!isNaN` guard, where the two agree) is modelled for decimal numerals
  (optional sign, digits, optional fraction, surrounding whitespace).
  Exotic forms (exponent notation, hex, `Infinity`) are not modelled.
* `Number.prototype.toString` is modelled by the exact decimal expansion,
  truncated at 17 fractional digits (every double prints at most 17
  significant digits); exponential notation for tiny magnitudes is not
  modelled (it is irrelevant to the classifier, whose `>= 0.001` bound
  rejects those magnitudes anyway).
* Cell values are `number | string | boolean` (`CellValue`); `null` and
  `undefined` never reach the modelled functions because every access
  goes through the `(sheet[row] && sheet[row][col]) || ''` accessor
  (`cellAt`), which collapses absent and falsy entries to `''`.
* String operations are carried out on `List Char` (`trimChars`,
  `splitOnDot`, `containsSeq`, …), mirroring `trim`, `split('.')`,
  `includes`, `endsWith('%')`/`slice(0,-1)` and `replace(/,/g,'')`.
* `XLSX.utils.encode_cell`/`decode_cell` round-trip; format hints `.z`
  and raw header cells `.v` are addressed directly by `(row, col)`.
-/

set_option maxRecDepth 100000

/-- A raw cell value as produced by `sheet_to_json(..., {header: 1, defval: ''})`:
a JS number, a string, or a boolean. -/
inductive CellValue where
  | num  (q : ℚ)
  | str  (s : String)
  | bool (b : Bool)
deriving DecidableEq

/-- A JS number: either an actual (rational-modelled) value or `NaN`. -/
inductive JSNumber where
  | nan
  | fin (q : ℚ)
deriving DecidableEq

/-! ## Kernel-evaluable rational arithmetic -/

/-- Addition on `ℚ` via `Rat.divInt` (evaluates in the kernel, unlike the
`@[irreducible]` field operation; see `qAdd_eq`). -/
def qAdd (a b : ℚ) : ℚ := Rat.divInt (a.num * b.den + b.num * a.den) (a.den * b.den)

/-- Subtraction on `ℚ` via `Rat.divInt`; see `qSub_eq`. -/
def qSub (a b : ℚ) : ℚ := Rat.divInt (a.num * b.den - b.num * a.den) (a.den * b.den)

/-- Multiplication on `ℚ` via `Rat.divInt`; see `qMul_eq`. -/
def qMul (a b : ℚ) : ℚ := Rat.divInt (a.num * b.num) (a.den * b.den)

/-- Negation on `ℚ` via `Rat.divInt`; see `qNeg_eq`. -/
def qNeg (a : ℚ) : ℚ := Rat.divInt (-a.num) a.den

/-- `Math.abs` on a rational. -/
def absQ (q : ℚ) : ℚ := if q < 0 then qNeg q else q

namespace JSNumber

/-- JS subtraction: `NaN` absorbs. -/
def sub : JSNumber → JSNumber → JSNumber
  | fin a, fin b => fin (qSub a b)
  | _, _ => nan

/-- JS multiplication: `NaN` absorbs. -/
def mul : JSNumber → JSNumber → JSNumber
  | fin a, fin b => fin (qMul a b)
  | _, _ => nan

/-- JS unary minus. -/
def neg : JSNumber → JSNumber
  | fin a => fin (qNeg a)
  | nan => nan

end JSNumber

/-- `Math.abs` on a JS number (`Math.abs(NaN) = NaN`). -/
def jsAbs : JSNumber → JSNumber
  | .fin a => .fin (absQ a)
  | .nan => .nan

/-- JS `>` against a plain rational: any comparison with `NaN` is false. -/
def jsGt : JSNumber → ℚ → Bool
  | .fin a, b => decide (b < a)
  | .nan, _ => false

/-- JS `<` against a plain rational: any comparison with `NaN` is false. -/
def jsLt : JSNumber → ℚ → Bool
  | .fin a, b => decide (a < b)
  | .nan, _ => false

/-- Floor of a rational (`Int.fdiv` of numerator by denominator). -/
def ratFloor (q : ℚ) : ℤ := q.num.fdiv q.den

/-- `Number(x.toFixed(2))`: round to 2 decimals, nearest, ties toward `+∞`
(the ECMAScript `toFixed` picks the larger candidate on a tie). -/
def roundToTwo (q : ℚ) : ℚ := Rat.divInt (ratFloor (qAdd (qMul q 100) (mkRat 1 2))) 100

/-- `toFixed(2)` then `Number(...)` lifted to JS numbers
(`NaN.toFixed(2) = "NaN"` and `Number("NaN") = NaN`). -/
def jsRoundToTwo : JSNumber → JSNumber
  | .fin q => .fin (roundToTwo q)
  | .nan => .nan

/-! ## Kernel-evaluable string utilities -/

/-- Decimal digit character. -/
def digitChar (n : Nat) : Char := Char.ofNat (48 + n)

/-- Decimal digits of a natural number, most significant first
(fuel-structured so it reduces in the kernel). -/
def natDigitsAux : Nat → Nat → List Char
  | 0, _ => []
  | fuel+1, n =>
    if n < 10 then [digitChar n]
    else natDigitsAux fuel (n / 10) ++ [digitChar (n % 10)]

/-- Decimal string of a natural number. -/
def natToString (n : Nat) : String := ⟨natDigitsAux (n + 1) n⟩

/-- `String.prototype.trim` on a character list (ASCII whitespace). -/
def trimChars (l : List Char) : List Char :=
  ((l.dropWhile Char.isWhitespace).reverse.dropWhile Char.isWhitespace).reverse

/-- `split('.')` on a character list. -/
def splitOnDotAux : List Char → List Char → List (List Char)
  | [], acc => [acc.reverse]
  | c :: rest, acc =>
    if c = '.' then acc.reverse :: splitOnDotAux rest []
    else splitOnDotAux rest (c :: acc)

/-- `split('.')`. -/
def splitOnDot (l : List Char) : List (List Char) := splitOnDotAux l []

/-- `includes(pat)` on character lists. -/
def containsSeq (pat : List Char) : List Char → Bool
  | [] => decide (pat = [])
  | c :: rest => pat.isPrefixOf (c :: rest) || containsSeq pat rest

/-! ## Decimal numerals and `Number.prototype.toString` -/

/-- Value of a digit list (`"00123"` parses like `123`). -/
def digitsVal (l : List Char) : Nat :=
  l.foldl (fun a c => 10 * a + (c.toNat - 48)) 0

/-- An unsigned JS decimal numeral: `digits`, `digits.digits`, `digits.`
or `.digits` (at least one digit overall). -/
def parseUnsignedDec (l : List Char) : Option ℚ :=
  match splitOnDot l with
  | [i] =>
    if i ≠ [] ∧ i.all Char.isDigit then some (Rat.divInt (digitsVal i) 1) else none
  | [i, f] =>
    if (i ≠ [] ∨ f ≠ []) ∧ i.all Char.isDigit ∧ f.all Char.isDigit then
      some (Rat.divInt (digitsVal i * 10 ^ f.length + digitsVal f) (10 ^ f.length))
    else none
  | _ => none

/-- A signed JS decimal numeral (input already trimmed). -/
def parseJsDec (l : List Char) : Option ℚ :=
  match l with
  | '-' :: rest => (parseUnsignedDec rest).map qNeg
  | '+' :: rest => parseUnsignedDec rest
  | _ => parseUnsignedDec l

/-- The source pattern `if (!isNaN(s)) return parseFloat(s)`, as one step:
`none` means `isNaN(s)` was true (the caller falls through); `some` is the
returned number. A whitespace-only `s` passes the `isNaN` guard
(`Number("") = 0`) but `parseFloat` then yields `NaN`. -/
def checkedParseFloat (l : List Char) : Option JSNumber :=
  let t := trimChars l
  if t = [] then some .nan
  else
    match parseJsDec t with
    | some q => some (.fin q)
    | none => none

/-- `Number(v)` coercion of a cell value. -/
def jsToNumber : CellValue → JSNumber
  | .num q => .fin q
  | .bool b => .fin (if b then 1 else 0)
  | .str s =>
    let t := trimChars s.data
    if t = [] then .fin 0
    else
      match parseJsDec t with
      | some q => .fin q
      | none => .nan

/-- First `k` digits of the decimal expansion of a rational in `[0, 1)`. -/
def fracDigitList : ℚ → Nat → List Nat
  | _, 0 => []
  | x, k+1 =>
    let y := qMul x 10
    let d := (ratFloor y).toNat
    d :: fracDigitList (qSub y (Rat.divInt d 1)) k

/-- Drop trailing zeros of a digit list. -/
def stripTrailingZeros (l : List Nat) : List Nat :=
  (l.reverse.dropWhile (· = 0)).reverse

/-- `Number.prototype.toString`: sign, integer part, and the fractional
digits of the exact decimal expansion (truncated at 17 digits, trailing
zeros stripped; exact whenever the denominator divides `10^17`). -/
def ratToDecChars (q : ℚ) : List Char :=
  let sign : List Char := if q < 0 then ['-'] else []
  let a := absQ q
  let ip := (ratFloor a).toNat
  let fr := stripTrailingZeros (fracDigitList (qSub a (Rat.divInt (ratFloor a) 1)) 17)
  if fr = [] then sign ++ natDigitsAux (ip + 1) ip
  else sign ++ natDigitsAux (ip + 1) ip ++ '.' :: fr.map digitChar

/-- `Number.prototype.toString` as a `String`. -/
def ratToDecString (q : ℚ) : String := ⟨ratToDecChars q⟩

/-- JS string coercion of a cell value (template-literal interpolation,
`String(v)`, `.toString()`). -/
def cvToString : CellValue → String
  | .num q => ratToDecString q
  | .str s => s
  | .bool b => if b then "true" else "false"

/-! ## `Utils.formatNumber` -/

/-- Split a digit run into groups of three, starting from the right
(input and output chunks reversed). -/
def chunksOfThree : List Char → List (List Char)
  | [] => []
  | [a] => [[a]]
  | [a, b] => [[a, b]]
  | a :: b :: c :: rest => [a, b, c] :: chunksOfThree rest

/-- The thousands-separator regex `replace(/\B(?=(\d{3})+(?!\d))/g, ',')`
applied to a digit run. -/
def groupIntDigits (l : List Char) : List Char :=
  List.intercalate [','] (((chunksOfThree l.reverse).map List.reverse).reverse)

/-- Thousands grouping of `parts[0]` (a possibly sign-prefixed integer part). -/
def groupThousands (l : List Char) : List Char :=
  match l with
  | '-' :: rest => '-' :: groupIntDigits rest
  | _ => groupIntDigits l

/-- `Utils.formatNumber(num)`: round to 2 decimals via `toFixed`, re-read
the number, print it, and insert thousands separators into the integer
part. -/
def formatNumber : JSNumber → String
  | .nan => "NaN"
  | .fin q =>
    match splitOnDot (ratToDecChars (roundToTwo q)) with
    | [] => ""
    | i :: rest => ⟨List.intercalate ['.'] (groupThousands i :: rest)⟩

/-! ## Value classifier and cell differ -/

/-- `CONFIG.NUMERIC_EPSILON = 0.000001`. -/
def NUMERIC_EPSILON : ℚ := mkRat 1 1000000

/-- `getNumericValue(value, isPercentage)`: a number is returned directly
(scaled by 100 when `isPercentage`); a non-blank string ending in `"%"`
whose prefix passes `isNaN` is parsed without the `"%"` (percentage
points, never re-scaled); any other non-blank string is parsed after
comma removal; everything else is `null` (`none`). -/
def getNumericValue (value : CellValue) (isPercentage : Bool) : Option JSNumber :=
  match value with
  | .num q => some (.fin (if isPercentage then qMul q 100 else q))
  | .str s =>
    let trimmedValue := trimChars s.data
    if trimmedValue ≠ [] then
      let pct :=
        if trimmedValue.getLast? = some '%' then
          checkedParseFloat trimmedValue.dropLast
        else none
      match pct with
      | some n => some n
      | none =>
        let cleanValue := trimmedValue.filter (· ≠ ',')
        match checkedParseFloat cleanValue with
        | some n => some n
        | none => none
    else none
  | .bool _ => none

/-- `extractPercentageValue(value)`: a number in `[0, 1]` is scaled by 100;
a trimmed string ending in `"%"` is parsed without the `"%"`; otherwise
`null`. -/
def extractPercentageValue (value : CellValue) : Option JSNumber :=
  match value with
  | .num q => if 0 ≤ q ∧ q ≤ 1 then some (.fin (qMul q 100)) else none
  | .str s =>
    let t := trimChars s.data
    if t.getLast? = some '%' then checkedParseFloat t.dropLast
    else none
  | .bool _ => none

/-- `valuesAreDifferent(originalValue, modifiedValue)`: strict equality,
then the plain-numeric epsilon test, then the percentage epsilon test,
then trimmed-string comparison. -/
def valuesAreDifferent (originalValue modifiedValue : CellValue) : Bool :=
  if originalValue = modifiedValue then false
  else
    match getNumericValue originalValue false, getNumericValue modifiedValue false with
    | some o, some m => jsGt (jsAbs (o.sub m)) NUMERIC_EPSILON
    | _, _ =>
      match extractPercentageValue originalValue, extractPercentageValue modifiedValue with
      | some o, some m => jsGt (jsAbs (o.sub m)) NUMERIC_EPSILON
      | _, _ =>
        decide (trimChars (cvToString originalValue).data ≠ trimChars (cvToString modifiedValue).data)

/-! ## Sheets, the cell accessor, and the aligner -/

/-- JS truthiness test on a cell value: `0`, `false` and `''` are falsy. -/
def isFalsy : CellValue → Bool
  | .num q => decide (q = 0)
  | .str s => decide (s = "")
  | .bool b => !b

/-- The raw matrix entry at `(r, c)` (`sheet[row]` and `sheet[row][col]`
without coercion), `none` when out of range. -/
def rawCell (m : List (List CellValue)) (r c : Nat) : Option CellValue :=
  (m.get? r).bind fun row => row.get? c

/-- The accessor `(sheet[row] && sheet[row][col]) || ''` used by the
aligner and both renderers: out-of-range and falsy entries read as `''`. -/
def cellAt (m : List (List CellValue)) (r c : Nat) : CellValue :=
  match rawCell m r c with
  | some v => if isFalsy v then .str "" else v
  | none => .str ""

/-- `Math.max(...sheet.map(row => row.length))` (0 for an empty sheet). -/
def maxRowLen (m : List (List CellValue)) : Nat :=
  (m.map List.length).foldr max 0

/-- `maxRows = Math.max(originalSheet.length, modifiedSheet.length)`. -/
def maxRowsOf (a b : List (List CellValue)) : Nat := max a.length b.length

/-- `maxCols`: the widest row across both sheets. -/
def maxColsOf (a b : List (List CellValue)) : Nat := max (maxRowLen a) (maxRowLen b)

/-- `XLSX.utils.encode_col`: bijective base-26 column letters (0 ↦ `A`). -/
def encodeColAux : Nat → Nat → List Char
  | 0, _ => []
  | fuel+1, c =>
    if c < 26 then [Char.ofNat (65 + c % 26)]
    else encodeColAux fuel (c / 26 - 1) ++ [Char.ofNat (65 + c % 26)]

/-- `XLSX.utils.encode_cell({r, c})`, e.g. `encode_cell 2 1 = "B3"`. -/
def encode_cell (r c : Nat) : String :=
  ⟨encodeColAux (c + 1) c ++ (natDigitsAux (r + 2) (r + 1))⟩

/-- One difference found by the aligner (`differences.push({...})` in
`compareFiles`): 1-based display row/col, spreadsheet-style `cellRef`,
and the two (accessor-coerced) values. -/
structure DifferenceRecord where
  sheet : String
  row : Nat
  col : Nat
  cellRef : String
  originalValue : CellValue
  modifiedValue : CellValue
deriving DecidableEq

/-- The `compareFiles` scan of one sheet: row-major over the common
bounding box, one `DifferenceRecord` per coordinate the cell differ
flags. -/
def sheetDifferences (orig mod : List (List CellValue)) (sheetName : String) :
    List DifferenceRecord :=
  (List.range (maxRowsOf orig mod)).flatMap fun row =>
    (List.range (maxColsOf orig mod)).filterMap fun col =>
      let originalValue := cellAt orig row col
      let modifiedValue := cellAt mod row col
      if valuesAreDifferent originalValue modifiedValue then
        some ⟨sheetName, row + 1, col + 1, encode_cell row col, originalValue, modifiedValue⟩
      else none

/-! ## Structure validator -/

/-- First position-wise mismatch of two equally long name lists. -/
def firstMismatch : List String → List String → Option (String × String)
  | a :: as, b :: bs => if a ≠ b then some (a, b) else firstMismatch as bs
  | _, _ => none

/-- `validateStructures()`: `none` = valid; `some msg` is the error
message (count mismatch first, then the first name mismatch in order). -/
def validateStructures (originalSheets modifiedSheets : List String) : Option String :=
  if originalSheets.length ≠ modifiedSheets.length then
    some ("Different number of sheets: Original has " ++ natToString originalSheets.length ++
      ", Modified has " ++ natToString modifiedSheets.length)
  else
    match firstMismatch originalSheets modifiedSheets with
    | some (a, b) => some ("Sheet names don\x27t match: \"" ++ a ++ "\" vs \"" ++ b ++ "\"")
    | none => none

/-! ## Value classifier: percentage detection and formatting -/

/-- First check of `isPercentageCell`: the cell's number-format string
`.z` contains `"%"` or `"percent"` (case-insensitive); `none` = the cell
object is absent or has no format. -/
def formatCodeSignal : Option String → Bool
  | some z =>
    let fc := z.data.map Char.toLower
    containsSeq ['%'] fc || containsSeq "percent".data fc
  | none => false

/-- Second check of `isPercentageCell`: the raw value `.v` of the
**original** workbook's cell at row 0 of the same column is truthy and
contains one of `"%"`, `"percent"`, `"rate"`, `"ratio"`
(case-insensitive). -/
def headerSignal : Option CellValue → Bool
  | some hv =>
    if isFalsy hv then false
    else
      let headerText := (cvToString hv).data.map Char.toLower
      containsSeq ['%'] headerText || containsSeq "percent".data headerText ||
        containsSeq "rate".data headerText || containsSeq "ratio".data headerText
  | none => false

/-- Inner step of the bare-fraction heuristic: `decimalPart` is
`valueStr.split('.')[1]`; it must be truthy with length at least 2, and
then `0.001 ≤ |value| ≤ 1` is required. -/
def heuristicDigits : Option (List Char) → ℚ → Bool
  | some decimalPart, q =>
    if decimalPart ≠ [] ∧ 2 ≤ decimalPart.length then
      decide (mkRat 1 1000 ≤ absQ q ∧ absQ q ≤ 1)
    else false
  | none, _ => false

/-- Third check of `isPercentageCell`: a number with `0 < |value| ≤ 1`
whose `toString` has a fractional part of at least two digits, bounded
below by `0.001`. -/
def fractionHeuristic : CellValue → Bool
  | .num q =>
    if absQ q ≤ 1 ∧ 0 < absQ q then
      heuristicDigits (splitOnDot (ratToDecChars q))[1]? q
    else false
  | _ => false

/-- `isPercentageCell(originalCell, sheetName, cellRef, value)`: the
three checks short-circuit in order: format code, header keywords,
bare-fraction heuristic (the source resolves the header cell through the
ambient `this.originalData`). -/
def isPercentageCell (formatCode : Option String) (headerCell : Option CellValue)
    (value : CellValue) : Bool :=
  formatCodeSignal formatCode || headerSignal headerCell || fractionHeuristic value

/-- `formatValue(value, originalCell, sheetName, cellRef)`: percentage
cells render as `sign + formatNumber(|Number((value*100).toFixed(2))|) + "%"`;
numbers and numeric-looking strings render through `formatNumber`
(`"x%"` strings drop their sign via `Math.abs`); anything else is
returned unchanged. -/
def formatValue (value : CellValue) (formatCode : Option String)
    (headerCell : Option CellValue) : CellValue :=
  if isPercentageCell formatCode headerCell value then
    let percentValue := jsAbs (jsRoundToTwo ((jsToNumber value).mul (.fin 100)))
    let sign := if jsLt (jsToNumber value) 0 then "-" else ""
    .str (sign ++ formatNumber percentValue ++ "%")
  else
    match value with
    | .num q => .str (formatNumber (.fin q))
    | .str s =>
      let trimmedValue := trimChars s.data
      if trimmedValue ≠ [] then
        let pct :=
          if trimmedValue.getLast? = some '%' then
            match checkedParseFloat trimmedValue.dropLast with
            | some numValue => some (formatNumber (jsAbs numValue) ++ "%")
            | none => none
          else none
        match pct with
        | some r => .str r
        | none =>
          match checkedParseFloat trimmedValue with
          | some numValue => .str (formatNumber numValue)
          | none => value
      else value
    | .bool _ => value

/-- The composite classification both renderers compute per side:
`isPercentageCell(...) || (typeof formatted === 'string' && formatted.includes('%'))`. -/
def cellIsPercentage (value : CellValue) (formatCode : Option String)
    (headerCell : Option CellValue) : Bool :=
  isPercentageCell formatCode headerCell value ||
    (match formatValue value formatCode headerCell with
     | .str s => containsSeq ['%'] s.data
     | _ => false)

/-! ## Report renderer: per-cell comparison text -/

/-- `createValueComparisonSingleCell(...)`: the single-cell layout text
for one coordinate. Blank/blank collapses to `""`; otherwise the label
text plus a `Difference:` tail in one of five shapes (percentage delta,
plain delta, zero, type mismatch, non-numeric). -/
def createValueComparisonSingleCell (originalValue modifiedValue : CellValue)
    (originalCellInfo modifiedCellInfo : Option String)
    (headerCell : Option CellValue) : String :=
  if originalValue = .str "" ∧ modifiedValue = .str "" then ""
  else
    let formattedOriginal := formatValue originalValue originalCellInfo headerCell
    let formattedModified := formatValue modifiedValue modifiedCellInfo headerCell
    let originalIsPercentage := cellIsPercentage originalValue originalCellInfo headerCell
    let modifiedIsPercentage := cellIsPercentage modifiedValue modifiedCellInfo headerCell
    let originalNumeric := getNumericValue originalValue originalIsPercentage
    let modifiedNumeric := getNumericValue modifiedValue modifiedIsPercentage
    let result := "Original Value: " ++ cvToString formattedOriginal ++
      ", Changed Value: " ++ cvToString formattedModified
    match originalNumeric, modifiedNumeric with
    | some o, some m =>
      if originalIsPercentage && modifiedIsPercentage then
        let difference := m.sub o
        let sign := if jsGt difference 0 then "+" else (if jsLt difference 0 then "" else "")
        let formattedDiff := formatNumber (jsAbs difference)
        if jsGt (jsAbs difference) NUMERIC_EPSILON then
          result ++ ", Difference: " ++ sign ++ formattedDiff ++ "%"
        else
          result ++ ", Difference: 0%"
      else if !originalIsPercentage && !modifiedIsPercentage then
        let difference := m.sub o
        let sign := if jsGt difference 0 then "+" else (if jsLt difference 0 then "" else "")
        let formattedDiff := formatNumber (jsAbs difference)
        if jsGt (jsAbs difference) NUMERIC_EPSILON then
          result ++ ", Difference: " ++ sign ++ formattedDiff
        else
          result ++ ", Difference: 0"
      else
        result ++ ", Difference: N/A (type mismatch)"
    | _, _ => result ++ ", Difference: N/A (non-numeric)"

/-- The three output cells `{original, changed, difference}` of the
multi-cell layout for one coordinate. -/
structure MultiCellResult where
  original : CellValue
  changed : CellValue
  difference : String
deriving DecidableEq

/-- `createValueComparisonMultiCell(...)`: identical semantics to the
single-cell variant, but the formatted values and the difference text are
emitted as three separate cells. -/
def createValueComparisonMultiCell (originalValue modifiedValue : CellValue)
    (originalCellInfo modifiedCellInfo : Option String)
    (headerCell : Option CellValue) : MultiCellResult :=
  if originalValue = .str "" ∧ modifiedValue = .str "" then ⟨.str "", .str "", ""⟩
  else
    let formattedOriginal := formatValue originalValue originalCellInfo headerCell
    let formattedModified := formatValue modifiedValue modifiedCellInfo headerCell
    let originalIsPercentage := cellIsPercentage originalValue originalCellInfo headerCell
    let modifiedIsPercentage := cellIsPercentage modifiedValue modifiedCellInfo headerCell
    let originalNumeric := getNumericValue originalValue originalIsPercentage
    let modifiedNumeric := getNumericValue modifiedValue modifiedIsPercentage
    let differenceText :=
      match originalNumeric, modifiedNumeric with
      | some o, some m =>
        if originalIsPercentage && modifiedIsPercentage then
          let difference := m.sub o
          let sign := if jsGt difference 0 then "+" else (if jsLt difference 0 then "" else "")
          let formattedDiff := formatNumber (jsAbs difference)
          if jsGt (jsAbs difference) NUMERIC_EPSILON then
            sign ++ formattedDiff ++ "%"
          else "0%"
        else if !originalIsPercentage && !modifiedIsPercentage then
          let difference := m.sub o
          let sign := if jsGt difference 0 then "+" else (if jsLt difference 0 then "" else "")
          let formattedDiff := formatNumber (jsAbs difference)
          if jsGt (jsAbs difference) NUMERIC_EPSILON then
            sign ++ formattedDiff
          else "0"
        else "N/A (type mismatch)"
      | _, _ => "N/A (non-numeric)"
    ⟨formattedOriginal, formattedModified, differenceText⟩

/-- The signed difference `modifiedNumeric - originalNumeric` both
renderers compute when both sides are numeric under their respective
classifications (`none` when either side fails `getNumericValue`). -/
def numericDelta (originalValue modifiedValue : CellValue)
    (originalIsPercentage modifiedIsPercentage : Bool) : Option JSNumber :=
  match getNumericValue originalValue originalIsPercentage,
      getNumericValue modifiedValue modifiedIsPercentage with
  | some o, some m => some (m.sub o)
  | _, _ => none

/-! ## Report renderer: full sheet layouts -/

/-- One sheet of a loaded workbook: the `sheet_to_json(..., {header: 1,
defval: ''})` value matrix, plus the number-format hints `.z` addressed
by `(row, col)` (`none` = absent cell or no format). -/
structure JSSheet where
  data : List (List CellValue)
  fmt : Nat → Nat → Option String

/-- The `hasAnyDifference` loop `for (col = 1; col < maxCols; col++)` of
both renderers: does any non-label column of row `r` differ? -/
def hasAnyDifferenceRow (orig mod : List (List CellValue)) (r maxCols : Nat) : Bool :=
  (List.range (maxCols - 1)).any fun i =>
    valuesAreDifferent (cellAt orig r (i + 1)) (cellAt mod r (i + 1))

/-- One data row of the single-cell layout: a column-0 label (tagged
`"[CHANGED] "` when any non-label column differs) followed by one
comparison cell per column. -/
def comparisonRowSingle (orig mod : JSSheet) (r maxCols : Nat) : List CellValue :=
  let hasAnyDifference := hasAnyDifferenceRow orig.data mod.data r maxCols
  (List.range maxCols).map fun col =>
    let originalValue := cellAt orig.data r col
    let modifiedValue := cellAt mod.data r col
    if col = 0 then
      if hasAnyDifference then .str ("[CHANGED] " ++ cvToString originalValue)
      else originalValue
    else
      .str (createValueComparisonSingleCell originalValue modifiedValue
        (orig.fmt r col) (mod.fmt r col) (rawCell orig.data 0 col))

/-- The fixed legend/header block of the single-cell layout (7 rows). -/
def legendSingle : List (List CellValue) :=
  [[.str "COMPARISON LEGEND"],
   [.str "Red Circle = Field name where values have changed"],
   [.str "No symbol = Field name where values are identical"],
   [.str "Format: Single Cell (Original Value, Changed Value, Difference)"],
   [.str ""],
   [.str "Field Name", .str "Value Comparison"],
   [.str ""]]

/-- `createComparisonDataSingleCell(originalData, modifiedData, sheetName)`:
legend block then one output row per bounding-box row. -/
def createComparisonDataSingleCell (orig mod : JSSheet) : List (List CellValue) :=
  legendSingle ++
    (List.range (maxRowsOf orig.data mod.data)).map fun row =>
      comparisonRowSingle orig mod row (maxColsOf orig.data mod.data)

/-- One data row of the multi-cell layout: the same label cell, then
three cells (original/changed/difference) per non-label column. -/
def comparisonRowMulti (orig mod : JSSheet) (r maxCols : Nat) : List CellValue :=
  let hasAnyDifference := hasAnyDifferenceRow orig.data mod.data r maxCols
  (List.range maxCols).flatMap fun col =>
    let originalValue := cellAt orig.data r col
    let modifiedValue := cellAt mod.data r col
    if col = 0 then
      if hasAnyDifference then [.str ("[CHANGED] " ++ cvToString originalValue)]
      else [originalValue]
    else
      let t := createValueComparisonMultiCell originalValue modifiedValue
        (orig.fmt r col) (mod.fmt r col) (rawCell orig.data 0 col)
      [t.original, t.changed, .str t.difference]

/-- The legend/header block of the multi-cell layout (7 rows; the header
row repeats the three column titles once per non-label column). -/
def legendMulti (maxCols : Nat) : List (List CellValue) :=
  [[.str "COMPARISON LEGEND"],
   [.str "Red Circle = Field name where values have changed"],
   [.str "No symbol = Field name where values are identical"],
   [.str "Format: Multi Cell (Separate columns for Original, Changed, Difference)"],
   [.str ""],
   .str "Field Name" :: ((List.range (maxCols - 1)).flatMap fun _ =>
     [.str "Original Value", .str "Changed Value", .str "Difference"]),
   [.str ""]]

/-- `createComparisonDataMultiCell(originalData, modifiedData, sheetName)`. -/
def createComparisonDataMultiCell (orig mod : JSSheet) : List (List CellValue) :=
  legendMulti (maxColsOf orig.data mod.data) ++
    (List.range (maxRowsOf orig.data mod.data)).map fun row =>
      comparisonRowMulti orig mod row (maxColsOf orig.data mod.data)

/-- The composite percentage classification the renderers compute for the
**modified** value at `(r, c)`: format hint from the modified sheet, but
the header cell from row 0 of the **original** sheet. -/
def modifiedClassificationAt (orig mod : JSSheet) (r c : Nat) : Bool :=
  cellIsPercentage (cellAt mod.data r c) (mod.fmt r c) (rawCell orig.data 0 c)

/-- The composite percentage classification the renderers compute for the
**original** value at `(r, c)`. -/
def originalClassificationAt (orig : JSSheet) (r c : Nat) : Bool :=
  cellIsPercentage (cellAt orig.data r c) (orig.fmt r c) (rawCell orig.data 0 c)

/-! ## General lemmas about the embedding -/

theorem ratNum_eq_mul_den (a : ℚ) : (a.num : ℚ) = a * (a.den : ℚ) := by
  have ha : (a.den : ℚ) ≠ 0 := Nat.cast_ne_zero.mpr a.den_nz
  exact (div_eq_iff ha).mp (Rat.num_div_den a)

theorem qAdd_eq (a b : ℚ) : qAdd a b = a + b := by
  have ha : (a.den : ℚ) ≠ 0 := Nat.cast_ne_zero.mpr a.den_nz
  have hb : (b.den : ℚ) ≠ 0 := Nat.cast_ne_zero.mpr b.den_nz
  unfold qAdd
  rw [Rat.divInt_eq_div]
  push_cast
  rw [div_eq_iff (mul_ne_zero ha hb), ratNum_eq_mul_den a, ratNum_eq_mul_den b]
  ring

theorem qSub_eq (a b : ℚ) : qSub a b = a - b := by
  have ha : (a.den : ℚ) ≠ 0 := Nat.cast_ne_zero.mpr a.den_nz
  have hb : (b.den : ℚ) ≠ 0 := Nat.cast_ne_zero.mpr b.den_nz
  unfold qSub
  rw [Rat.divInt_eq_div]
  push_cast
  rw [div_eq_iff (mul_ne_zero ha hb), ratNum_eq_mul_den a, ratNum_eq_mul_den b]
  ring

theorem qMul_eq (a b : ℚ) : qMul a b = a * b := by
  have ha : (a.den : ℚ) ≠ 0 := Nat.cast_ne_zero.mpr a.den_nz
  have hb : (b.den : ℚ) ≠ 0 := Nat.cast_ne_zero.mpr b.den_nz
  unfold qMul
  rw [Rat.divInt_eq_div]
  push_cast
  rw [div_eq_iff (mul_ne_zero ha hb), ratNum_eq_mul_den a, ratNum_eq_mul_den b]
  ring

theorem qNeg_eq (a : ℚ) : qNeg a = -a := by
  have ha : (a.den : ℚ) ≠ 0 := Nat.cast_ne_zero.mpr a.den_nz
  unfold qNeg
  rw [Rat.divInt_eq_div]
  push_cast
  rw [div_eq_iff ha, ratNum_eq_mul_den a]
  ring

theorem absQ_eq (q : ℚ) : absQ q = |q| := by
  unfold absQ
  rw [qNeg_eq]
  by_cases h : q < 0
  · rw [if_pos h, abs_of_neg h]
  · rw [if_neg h, abs_of_nonneg (not_lt.mp h)]

theorem NUMERIC_EPSILON_eq : NUMERIC_EPSILON = 1 / 1000000 := by
  unfold NUMERIC_EPSILON
  rw [Rat.mkRat_eq_div]
  norm_num

theorem NUMERIC_EPSILON_pos : 0 < NUMERIC_EPSILON := by
  rw [NUMERIC_EPSILON_eq]
  norm_num

theorem str_append_empty (s : String) : s ++ "" = s := by
  cases s with
  | mk l => show String.mk (l ++ []) = String.mk l
            rw [List.append_nil]

theorem valuesAreDifferent_self (v : CellValue) : valuesAreDifferent v v = false := by
  unfold valuesAreDifferent
  rw [if_pos rfl]

theorem getNumericValue_blank (p : Bool) : getNumericValue (.str "") p = none := by
  cases p <;> decide

theorem blankSingle (f g : Option String) (hd : Option CellValue) :
    createValueComparisonSingleCell (.str "") (.str "") f g hd = "" := by
  unfold createValueComparisonSingleCell
  rw [if_pos ⟨rfl, rfl⟩]

theorem blankMulti (f g : Option String) (hd : Option CellValue) :
    createValueComparisonMultiCell (.str "") (.str "") f g hd = ⟨.str "", .str "", ""⟩ := by
  unfold createValueComparisonMultiCell
  rw [if_pos ⟨rfl, rfl⟩]

/-- Anatomy of a membership in the aligner output: it comes from a
bounding-box coordinate the cell differ flagged. -/
theorem mem_sheetDifferences (orig mod : List (List CellValue)) (name : String)
    (rec : DifferenceRecord) (h : rec ∈ sheetDifferences orig mod name) :
    ∃ row col, row < maxRowsOf orig mod ∧ col < maxColsOf orig mod ∧
      valuesAreDifferent (cellAt orig row col) (cellAt mod row col) = true ∧
      rec = ⟨name, row + 1, col + 1, encode_cell row col,
        cellAt orig row col, cellAt mod row col⟩ := by
  simp only [sheetDifferences, List.mem_flatMap, List.mem_filterMap, List.mem_range] at h
  obtain ⟨row, hrow, col, hcol, hrec⟩ := h
  refine ⟨row, col, hrow, hcol, ?_⟩
  split at hrec
  · next hdiff => exact ⟨hdiff, (Option.some.inj hrec).symm⟩
  · exact absurd hrec (by simp)

/-- A coordinate whose pair the differ does not flag contributes no
record (at its 1-based display coordinates). -/
theorem no_record_of_not_different (orig mod : List (List CellValue)) (name : String)
    (r c : Nat) (h : valuesAreDifferent (cellAt orig r c) (cellAt mod r c) = false) :
    ∀ rec ∈ sheetDifferences orig mod name, ¬(rec.row = r + 1 ∧ rec.col = c + 1) := by
  rintro rec hrec ⟨hr, hc⟩
  obtain ⟨row, col, _, _, hdiff, hrec⟩ := mem_sheetDifferences orig mod name rec hrec
  subst hrec
  simp only at hr hc
  obtain rfl : row = r := by omega
  obtain rfl : col = c := by omega
  rw [h] at hdiff
  cases hdiff

/-! ## C1 — percentage normalization of `0.055` vs `"5.5%"` -/

/-- C1 counterexample: `valuesAreDifferent(0.055, "5.5%")` returns `true`,
not `false` as the claim states. -/
theorem C1_counterexample :
    valuesAreDifferent (.num (mkRat 55 1000)) (.str "5.5%") = true := by decide

/-- C1 (amended): `valuesAreDifferent(0.055, "5.5%")` returns `true`. The
plain-numeric parse (`getNumericValue(·, false)`) already handles the
percentage string — its `%`-branch runs regardless of the flag — so the
pair is compared as `0.055` vs `5.5` in the *numeric* branch and fails the
epsilon test; the percentage-normalization branch
(`extractPercentageValue`) is never consulted, even though the heuristic
does classify `0.055` as a percentage. -/
theorem C1_amended :
    valuesAreDifferent (.num (mkRat 55 1000)) (.str "5.5%") = true ∧
    getNumericValue (.num (mkRat 55 1000)) false = some (.fin (mkRat 55 1000)) ∧
    getNumericValue (.str "5.5%") false = some (.fin (mkRat 11 2)) ∧
    isPercentageCell none none (.num (mkRat 55 1000)) = true := by
  exact ⟨by decide, by decide, by decide, by decide⟩

/-! ## C3 — the bare-fraction heuristic -/

/-- C3 counterexample: `0.0005` has absolute value in `(0, 1]` and 4
fractional digits in its decimal representation, yet `isPercentageCell`
(with no format hint and no header cell) returns `false` — the code
additionally requires `|value| ≥ 0.001`. -/
theorem C3_counterexample :
    (0 < absQ (mkRat 5 10000) ∧ absQ (mkRat 5 10000) ≤ 1) ∧
    (splitOnDot (ratToDecChars (mkRat 5 10000)))[1]? = some ['0', '0', '0', '5'] ∧
    isPercentageCell none none (.num (mkRat 5 10000)) = false := by
  exact ⟨by decide, by decide, by decide⟩

/-- C3 (amended): with no format-hint signal and no header signal, a
number is classified as a percentage **iff** its absolute value lies in
`(0, 1]`, its decimal representation has at least 2 fractional digits,
**and its absolute value is at least 0.001** (the guard the claim
omits). -/
theorem C3_amended (q : ℚ) :
    isPercentageCell none none (.num q) = true ↔
      (0 < absQ q ∧ absQ q ≤ 1 ∧
        (∃ d, (splitOnDot (ratToDecChars q))[1]? = some d ∧ d ≠ [] ∧ 2 ≤ d.length) ∧
        mkRat 1 1000 ≤ absQ q) := by
  unfold isPercentageCell
  have hf : formatCodeSignal none = false := rfl
  have hh : headerSignal none = false := rfl
  rw [hf, hh, Bool.false_or, Bool.false_or]
  simp only [fractionHeuristic]
  constructor
  · intro h
    by_cases h1 : absQ q ≤ 1 ∧ 0 < absQ q
    · rw [if_pos h1] at h
      cases hd : (splitOnDot (ratToDecChars q))[1]? with
      | none =>
        rw [hd] at h
        simp [heuristicDigits] at h
      | some d =>
        rw [hd] at h
        simp only [heuristicDigits] at h
        by_cases h2 : d ≠ [] ∧ 2 ≤ d.length
        · rw [if_pos h2] at h
          rw [decide_eq_true_eq] at h
          exact ⟨h1.2, h1.1, ⟨d, rfl, h2.1, h2.2⟩, h.1⟩
        · rw [if_neg h2] at h
          cases h
    · rw [if_neg h1] at h
      cases h
  · rintro ⟨hpos, hle, ⟨d, hd, hne, hlen⟩, hbound⟩
    rw [if_pos ⟨hle, hpos⟩, hd]
    simp only [heuristicDigits]
    rw [if_pos ⟨hne, hlen⟩, decide_eq_true_eq]
    exact ⟨hbound, hle⟩

/-- C3 witness: `0.055` satisfies the amended conditions and is
classified as a percentage. -/
theorem C3_witness : isPercentageCell none none (.num (mkRat 55 1000)) = true :=
  (C3_amended (mkRat 55 1000)).mpr
    ⟨by decide, by decide, ⟨['0', '5', '5'], by decide, by decide, by decide⟩, by decide⟩

/-! ## C5 — the structure validator -/

/-- On equally long lists, `firstMismatch` finds nothing iff the lists
are equal. -/
theorem firstMismatch_none_iff :
    ∀ (o m : List String), o.length = m.length → (firstMismatch o m = none ↔ o = m)
  | [], [], _ => by simp [firstMismatch]
  | [], _ :: _, h => by simp at h
  | _ :: _, [], h => by simp at h
  | a :: as, b :: bs, h => by
    simp only [firstMismatch]
    by_cases hab : a = b
    · subst hab
      rw [if_neg (by simp)]
      have ih := firstMismatch_none_iff as bs (by simpa using h)
      simp [ih]
    · rw [if_pos hab]
      simp [hab]

/-- C5: `validateStructures` passes iff the ordered sheet-name lists are
equal; a count mismatch reports both counts; a name mismatch at matching
counts reports the first mismatching pair; `["A","B"]` vs `["B","A"]`
fails even though the name sets agree. -/
theorem C5_structuralGate (o m : List String) :
    (validateStructures o m = none ↔ o = m) ∧
    (o.length ≠ m.length →
      validateStructures o m = some ("Different number of sheets: Original has " ++
        natToString o.length ++ ", Modified has " ++ natToString m.length)) ∧
    (∀ a b, o.length = m.length → firstMismatch o m = some (a, b) →
      validateStructures o m =
        some ("Sheet names don\x27t match: \"" ++ a ++ "\" vs \"" ++ b ++ "\"")) ∧
    validateStructures ["A", "B"] ["B", "A"] ≠ none := by
  refine ⟨?_, ?_, ?_, by decide⟩
  · by_cases hlen : o.length = m.length
    · unfold validateStructures
      rw [if_neg (by simpa using hlen)]
      constructor
      · intro hnone
        rcases hsm : firstMismatch o m with _ | p
        · exact (firstMismatch_none_iff o m hlen).mp hsm
        · rw [hsm] at hnone
          simp at hnone
      · intro heq
        rw [(firstMismatch_none_iff o m hlen).mpr heq]
    · unfold validateStructures
      rw [if_pos (by simpa using hlen)]
      constructor
      · intro hcontra
        simp at hcontra
      · intro heq
        exact absurd (congrArg List.length heq) hlen
  · intro hlen
    unfold validateStructures
    rw [if_pos (by simpa using hlen)]
  · intro a b hlen hfm
    unfold validateStructures
    rw [if_neg (by simpa using hlen), hfm]

/-- C5 witness: a concrete count mismatch and the concrete out-of-order
pair. -/
theorem C5_witness :
    validateStructures ["A"] ["A", "B"] =
      some ("Different number of sheets: Original has " ++ natToString 1 ++
        ", Modified has " ++ natToString 2) ∧
    validateStructures ["A", "B"] ["B", "A"] ≠ none :=
  ⟨(C5_structuralGate ["A"] ["A", "B"]).2.1 (by decide),
   (C5_structuralGate ["A", "B"] ["B", "A"]).2.2.2⟩

/-! ## C4 — the epsilon boundary -/

/-- C4: for values that both parse as plain numerics, a pair whose
parsed values differ by exactly `EPSILON = 1e-6` is NOT flagged
different, and a pair differing by `EPSILON + 1e-9` IS flagged. -/
theorem C4_epsilonBoundary (a b : CellValue) (x y : ℚ)
    (hx : getNumericValue a false = some (.fin x))
    (hy : getNumericValue b false = some (.fin y)) :
    (|x - y| = NUMERIC_EPSILON → valuesAreDifferent a b = false) ∧
    (|x - y| = NUMERIC_EPSILON + 1 / 1000000000 → valuesAreDifferent a b = true) := by
  constructor
  · intro h
    unfold valuesAreDifferent
    by_cases hab : a = b
    · rw [if_pos hab]
    · rw [if_neg hab, hx, hy]
      show jsGt (jsAbs ((JSNumber.fin x).sub (.fin y))) NUMERIC_EPSILON = false
      simp only [JSNumber.sub, jsAbs, jsGt]
      rw [decide_eq_false_iff_not, absQ_eq, qSub_eq, h]
      exact lt_irrefl _
  · intro h
    have hne : x ≠ y := by
      intro hxy
      rw [hxy, sub_self, abs_zero, NUMERIC_EPSILON_eq] at h
      norm_num at h
    have hab : a ≠ b := by
      intro hab
      rw [hab, hy] at hx
      exact hne (JSNumber.fin.inj (Option.some.inj hx)).symm
    unfold valuesAreDifferent
    rw [if_neg hab, hx, hy]
    show jsGt (jsAbs ((JSNumber.fin x).sub (.fin y))) NUMERIC_EPSILON = true
    simp only [JSNumber.sub, jsAbs, jsGt]
    rw [decide_eq_true_eq, absQ_eq, qSub_eq, h]
    have := NUMERIC_EPSILON_pos
    linarith

/-- C4 witness: `0` vs `1e-6` is not flagged; `0` vs `1e-6 + 1e-9` is. -/
theorem C4_witness :
    valuesAreDifferent (.num 0) (.num (mkRat 1 1000000)) = false ∧
    valuesAreDifferent (.num 0) (.num (mkRat 1001 1000000000)) = true := by
  constructor
  · exact (C4_epsilonBoundary (.num 0) (.num (mkRat 1 1000000)) 0 (mkRat 1 1000000)
      (by decide) (by decide)).1
      (by rw [NUMERIC_EPSILON_eq, Rat.mkRat_eq_div]; norm_num)
  · exact (C4_epsilonBoundary (.num 0) (.num (mkRat 1001 1000000000)) 0 (mkRat 1001 1000000000)
      (by decide) (by decide)).2
      (by rw [NUMERIC_EPSILON_eq, Rat.mkRat_eq_div]; norm_num)

/-! ## C6 — symmetry of detection, antisymmetry of delta -/

theorem jsAbs_sub_comm (o m : JSNumber) : jsAbs (o.sub m) = jsAbs (m.sub o) := by
  cases o <;> cases m <;> simp [JSNumber.sub, jsAbs, qSub_eq, absQ_eq, abs_sub_comm]

theorem JSNumber.sub_antisymm (o m : JSNumber) : o.sub m = (m.sub o).neg := by
  cases o <;> cases m <;> simp [JSNumber.sub, JSNumber.neg, qSub_eq, qNeg_eq, neg_sub]

/-- C6: `valuesAreDifferent` is symmetric, and when both sides are
numeric-comparable the delta (modified minus original) computed for the
swapped pair is the negation of the delta for the original pair. -/
theorem C6_symmetry (a b : CellValue) :
    valuesAreDifferent a b = valuesAreDifferent b a ∧
    (∀ (aP bP : Bool) (da db : JSNumber),
      numericDelta a b aP bP = some da → numericDelta b a bP aP = some db →
      db = da.neg) := by
  constructor
  · unfold valuesAreDifferent
    by_cases hab : a = b
    · rw [if_pos hab, if_pos hab.symm]
    · rw [if_neg hab, if_neg (Ne.symm hab)]
      cases hga : getNumericValue a false <;> cases hgb : getNumericValue b false <;>
        cases hpa : extractPercentageValue a <;> cases hpb : extractPercentageValue b <;>
        simp only [jsAbs_sub_comm] <;>
        rw [decide_eq_decide] <;>
        exact ne_comm
  · intro aP bP da db hda hdb
    unfold numericDelta at hda hdb
    cases hga : getNumericValue a aP <;> rw [hga] at hda hdb <;>
      cases hgb : getNumericValue b bP <;> rw [hgb] at hda hdb
    · simp at hda
    · simp at hda
    · simp at hda
    · next o m =>
      have hda' : m.sub o = da := Option.some.inj hda
      have hdb' : o.sub m = db := Option.some.inj hdb
      rw [← hda', ← hdb']
      exact JSNumber.sub_antisymm o m

/-- C6 witness: concrete symmetric detection and negated delta for the
pair `(1, 3)`. -/
theorem C6_witness :
    valuesAreDifferent (.num 1) (.num 3) = valuesAreDifferent (.num 3) (.num 1) ∧
    JSNumber.fin (qSub 1 3) = (JSNumber.fin (qSub 3 1)).neg := by
  refine ⟨(C6_symmetry (.num 1) (.num 3)).1, ?_⟩
  exact (C6_symmetry (.num 1) (.num 3)).2 false false (.fin (qSub 3 1)) (.fin (qSub 1 3))
    (by decide) (by decide)

/-! ## C8 — blank/blank coordinates -/

/-- C8: at a coordinate where both sides read blank, the single-cell
layout renders `""`, the multi-cell layout renders three empty cells, and
the aligner emits no `DifferenceRecord` for that coordinate (whatever the
format hints and header cell in scope). -/
theorem C8_blankPair (orig mod : List (List CellValue)) (f g : Option String)
    (hd : Option CellValue) (name : String) (r c : Nat)
    (ho : cellAt orig r c = .str "") (hm : cellAt mod r c = .str "") :
    createValueComparisonSingleCell (cellAt orig r c) (cellAt mod r c) f g hd = "" ∧
    createValueComparisonMultiCell (cellAt orig r c) (cellAt mod r c) f g hd =
      ⟨.str "", .str "", ""⟩ ∧
    ∀ rec ∈ sheetDifferences orig mod name, ¬(rec.row = r + 1 ∧ rec.col = c + 1) := by
  rw [ho, hm]
  refine ⟨blankSingle f g hd, blankMulti f g hd, ?_⟩
  apply no_record_of_not_different
  rw [ho, hm]
  exact valuesAreDifferent_self (.str "")

/-- C8 witness: a concrete sheet pair blank at `(0, 1)`. -/
theorem C8_witness :
    createValueComparisonSingleCell (cellAt [[.str "a", .str ""]] 0 1)
      (cellAt [[.str "a"]] 0 1) none none none = "" ∧
    createValueComparisonMultiCell (cellAt [[.str "a", .str ""]] 0 1)
      (cellAt [[.str "a"]] 0 1) none none none = ⟨.str "", .str "", ""⟩ ∧
    ∀ rec ∈ sheetDifferences [[.str "a", .str ""]] [[.str "a"]] "Sheet1",
      ¬(rec.row = 0 + 1 ∧ rec.col = 1 + 1) :=
  C8_blankPair [[.str "a", .str ""]] [[.str "a"]] none none none "Sheet1" 0 1
    (by decide) (by decide)

/-! ## C9 — falsy cell values read as blank -/

/-- C9: the accessor used by the aligner and both renderers reads any
falsy entry (`0`, `false`, `""`) and any absent entry as `""`; hence a
coordinate holding `0` on one side and nothing (or `""`) on the other
compares equal, contributes no `DifferenceRecord`, and renders blank in
both layouts. -/
theorem C9_falsyCells (orig mod : List (List CellValue)) (name : String)
    (f g : Option String) (hd : Option CellValue) (r c : Nat)
    (h0 : rawCell orig r c = some (.num 0))
    (habs : rawCell mod r c = none ∨ rawCell mod r c = some (.str "")) :
    (∀ (mat : List (List CellValue)) (i j : Nat) (v : CellValue),
      rawCell mat i j = some v → isFalsy v = true → cellAt mat i j = .str "") ∧
    cellAt orig r c = .str "" ∧ cellAt mod r c = .str "" ∧
    valuesAreDifferent (cellAt orig r c) (cellAt mod r c) = false ∧
    (∀ rec ∈ sheetDifferences orig mod name, ¬(rec.row = r + 1 ∧ rec.col = c + 1)) ∧
    createValueComparisonSingleCell (cellAt orig r c) (cellAt mod r c) f g hd = "" ∧
    createValueComparisonMultiCell (cellAt orig r c) (cellAt mod r c) f g hd =
      ⟨.str "", .str "", ""⟩ := by
  have hfalsy : ∀ (mat : List (List CellValue)) (i j : Nat) (v : CellValue),
      rawCell mat i j = some v → isFalsy v = true → cellAt mat i j = .str "" := by
    intro mat i j v hraw hv
    unfold cellAt
    rw [hraw]
    show (if isFalsy v = true then CellValue.str "" else v) = .str ""
    rw [if_pos hv]
  have ho : cellAt orig r c = .str "" := hfalsy orig r c _ h0 (by decide)
  have hm : cellAt mod r c = .str "" := by
    rcases habs with h | h
    · unfold cellAt
      rw [h]
    · exact hfalsy mod r c _ h (by decide)
  have hdiff : valuesAreDifferent (cellAt orig r c) (cellAt mod r c) = false := by
    rw [ho, hm]
    exact valuesAreDifferent_self (.str "")
  refine ⟨hfalsy, ho, hm, hdiff, no_record_of_not_different orig mod name r c hdiff, ?_, ?_⟩
  · rw [ho, hm]
    exact blankSingle f g hd
  · rw [ho, hm]
    exact blankMulti f g hd

/-- C9 witness: `0` on the original side, absent cell on the modified
side, at `(0, 1)`. -/
theorem C9_witness :
    cellAt [[.str "a", .num 0]] 0 1 = .str "" ∧
    cellAt [[.str "a"]] 0 1 = .str "" ∧
    valuesAreDifferent (cellAt [[.str "a", .num 0]] 0 1) (cellAt [[.str "a"]] 0 1) = false ∧
    createValueComparisonSingleCell (cellAt [[.str "a", .num 0]] 0 1)
      (cellAt [[.str "a"]] 0 1) none none none = "" := by
  have h := C9_falsyCells [[.str "a", .num 0]] [[.str "a"]] "Sheet1" none none none 0 1
    (by decide) (Or.inl (by decide))
  exact ⟨h.2.1, h.2.2.1, h.2.2.2.1, h.2.2.2.2.2.1⟩

/-! ## C2 — the difference sign convention -/

theorem str_append_assoc (u v w : String) : u ++ v ++ w = u ++ (v ++ w) := by
  cases u with
  | mk lu =>
    cases v with
    | mk lv =>
      cases w with
      | mk lw =>
        show String.mk (lu ++ lv ++ lw) = String.mk (lu ++ (lv ++ lw))
        rw [List.append_assoc]

theorem str_empty_append (s : String) : "" ++ s = s := rfl

/-- C2 counterexample: original `150`, modified `100` (delta `-50`)
renders `"Difference: 50"` — no leading minus — in both layouts. -/
theorem C2_counterexample :
    createValueComparisonSingleCell (.num 150) (.num 100) none none none =
      "Original Value: 150, Changed Value: 100, Difference: 50" ∧
    createValueComparisonSingleCell (.num 150) (.num 100) none none none ≠
      "Original Value: 150, Changed Value: 100, Difference: -50" ∧
    (createValueComparisonMultiCell (.num 150) (.num 100) none none none).difference = "50" := by
  exact ⟨by decide, by decide, by decide⟩

/-- C2 (amended): in both layouts, for a cell pair that is
numeric-comparable in the same category `p`, the Difference text is the
unsigned formatted magnitude with **no** sign for a negative delta below
`-EPSILON`, a leading `+` for a positive delta above `EPSILON`, and
`"0"`/`"0%"` for a delta within `EPSILON` of zero; the single-cell text
is the multi-cell difference text prefixed by the value labels. -/
theorem C2_amended (a b : CellValue) (fa fb : Option String) (hd : Option CellValue)
    (p : Bool) (x y : ℚ)
    (hpa : cellIsPercentage a fa hd = p) (hpb : cellIsPercentage b fb hd = p)
    (hx : getNumericValue a p = some (.fin x))
    (hy : getNumericValue b p = some (.fin y)) :
    (createValueComparisonSingleCell a b fa fb hd =
      "Original Value: " ++ cvToString (formatValue a fa hd) ++ ", Changed Value: " ++
        cvToString (formatValue b fb hd) ++ ", Difference: " ++
        (createValueComparisonMultiCell a b fa fb hd).difference) ∧
    (y - x < -NUMERIC_EPSILON →
      (createValueComparisonMultiCell a b fa fb hd).difference =
        formatNumber (.fin (absQ (y - x))) ++ (if p then "%" else "")) ∧
    (NUMERIC_EPSILON < y - x →
      (createValueComparisonMultiCell a b fa fb hd).difference =
        "+" ++ formatNumber (.fin (absQ (y - x))) ++ (if p then "%" else "")) ∧
    (|y - x| ≤ NUMERIC_EPSILON →
      (createValueComparisonMultiCell a b fa fb hd).difference =
        (if p then "0%" else "0")) := by
  have hblank : ¬(a = CellValue.str "" ∧ b = CellValue.str "") := by
    rintro ⟨ha, _⟩
    rw [ha, getNumericValue_blank] at hx
    cases hx
  have hsub : qSub y x = y - x := qSub_eq y x
  unfold createValueComparisonSingleCell createValueComparisonMultiCell
  rw [if_neg hblank, if_neg hblank]
  simp only [hpa, hpb, hx, hy, JSNumber.sub, jsAbs, jsGt, jsLt, hsub]
  cases p
  · refine ⟨?_, ?_, ?_, ?_⟩
    · by_cases h1 : NUMERIC_EPSILON < absQ (y - x) <;>
        simp [h1, str_append_assoc, str_empty_append]
    · intro hneg
      have hyx : y < x := by linarith [NUMERIC_EPSILON_pos]
      have hnxy : ¬ x < y := by linarith
      have habs : NUMERIC_EPSILON < absQ (y - x) := by
        rw [absQ_eq, abs_of_neg (show y - x < 0 by linarith [NUMERIC_EPSILON_pos])]
        linarith
      simp [habs, hnxy, hyx, str_append_assoc, str_empty_append]
    · intro hpos
      have hxy : x < y := by linarith [NUMERIC_EPSILON_pos]
      have habs : NUMERIC_EPSILON < absQ (y - x) := by
        rw [absQ_eq, abs_of_pos (show 0 < y - x by linarith)]
        linarith
      simp [habs, hxy, str_append_assoc, str_empty_append]
    · intro hz
      have habs : ¬(NUMERIC_EPSILON < absQ (y - x)) := by
        rw [absQ_eq]
        exact not_lt.mpr hz
      simp [habs]
  · refine ⟨?_, ?_, ?_, ?_⟩
    · by_cases h1 : NUMERIC_EPSILON < absQ (y - x) <;>
        simp [h1, str_append_assoc, str_empty_append]
    · intro hneg
      have hyx : y < x := by linarith [NUMERIC_EPSILON_pos]
      have hnxy : ¬ x < y := by linarith
      have habs : NUMERIC_EPSILON < absQ (y - x) := by
        rw [absQ_eq, abs_of_neg (show y - x < 0 by linarith [NUMERIC_EPSILON_pos])]
        linarith
      simp [habs, hnxy, hyx, str_append_assoc, str_empty_append]
    · intro hpos
      have hxy : x < y := by linarith [NUMERIC_EPSILON_pos]
      have habs : NUMERIC_EPSILON < absQ (y - x) := by
        rw [absQ_eq, abs_of_pos (show 0 < y - x by linarith)]
        linarith
      simp [habs, hxy, str_append_assoc, str_empty_append]
    · intro hz
      have habs : ¬(NUMERIC_EPSILON < absQ (y - x)) := by
        rw [absQ_eq]
        exact not_lt.mpr hz
      simp [habs]

/-- C2 witness: the pair `(150, 100)` instantiates the amended claim in
its negative-delta case. -/
theorem C2_witness :
    createValueComparisonSingleCell (.num 150) (.num 100) none none none =
      "Original Value: " ++ cvToString (formatValue (.num 150) none none) ++
        ", Changed Value: " ++ cvToString (formatValue (.num 100) none none) ++
        ", Difference: " ++
        (createValueComparisonMultiCell (.num 150) (.num 100) none none none).difference ∧
    (createValueComparisonMultiCell (.num 150) (.num 100) none none none).difference =
      formatNumber (.fin (absQ ((100 : ℚ) - 150))) ++ (if (false : Bool) then "%" else "") := by
  have h := C2_amended (.num 150) (.num 100) none none none false 150 100
    (by decide) (by decide) (by decide) (by decide)
  exact ⟨h.1, h.2.1 (by rw [NUMERIC_EPSILON_eq]; norm_num)⟩

/-! ## C7 — row-label tagging -/

/-- The `hasAnyDifference` loop succeeds iff some non-label column of the
bounding box differs. -/
theorem hasAnyDifferenceRow_iff (orig mod : List (List CellValue)) (r maxCols : Nat) :
    hasAnyDifferenceRow orig mod r maxCols = true ↔
      ∃ c, 1 ≤ c ∧ c < maxCols ∧
        valuesAreDifferent (cellAt orig r c) (cellAt mod r c) = true := by
  unfold hasAnyDifferenceRow
  rw [List.any_eq_true]
  constructor
  · rintro ⟨i, hi, hdiff⟩
    rw [List.mem_range] at hi
    exact ⟨i + 1, Nat.le_add_left 1 i, by omega, hdiff⟩
  · rintro ⟨c, h1, h2, hdiff⟩
    refine ⟨c - 1, ?_, ?_⟩
    · rw [List.mem_range]
      omega
    · have hc1 : c - 1 + 1 = c := by omega
      rw [hc1]
      exact hdiff

/-- Row `7 + r` of the single-cell layout is the data row for source
row `r`. -/
theorem single_data_row (orig mod : JSSheet) (r : Nat)
    (hr : r < maxRowsOf orig.data mod.data) :
    (createComparisonDataSingleCell orig mod)[7 + r]? =
      some (comparisonRowSingle orig mod r (maxColsOf orig.data mod.data)) := by
  unfold createComparisonDataSingleCell
  rw [List.getElem?_append_right (by simp [legendSingle])]
  have hlen : (7 : Nat) + r - legendSingle.length = r := by simp [legendSingle]
  rw [hlen, List.getElem?_map, List.getElem?_range hr, Option.map_some']

/-- Row `7 + r` of the multi-cell layout is the data row for source
row `r`. -/
theorem multi_data_row (orig mod : JSSheet) (r : Nat)
    (hr : r < maxRowsOf orig.data mod.data) :
    (createComparisonDataMultiCell orig mod)[7 + r]? =
      some (comparisonRowMulti orig mod r (maxColsOf orig.data mod.data)) := by
  unfold createComparisonDataMultiCell
  rw [List.getElem?_append_right (by simp [legendMulti])]
  have hlen : (7 : Nat) + r - (legendMulti (maxColsOf orig.data mod.data)).length = r := by
    simp [legendMulti]
  rw [hlen, List.getElem?_map, List.getElem?_range hr, Option.map_some']

/-- Head of a single-cell data row: the (possibly tagged) label. -/
theorem comparisonRowSingle_head (orig mod : JSSheet) (r maxCols : Nat) (hc : 0 < maxCols) :
    (comparisonRowSingle orig mod r maxCols)[0]? =
      some (if hasAnyDifferenceRow orig.data mod.data r maxCols then
          .str ("[CHANGED] " ++ cvToString (cellAt orig.data r 0))
        else cellAt orig.data r 0) := by
  unfold comparisonRowSingle
  rw [List.getElem?_map, List.getElem?_range hc, Option.map_some']
  simp

/-- Head of a multi-cell data row: the same (possibly tagged) label. -/
theorem comparisonRowMulti_head (orig mod : JSSheet) (r maxCols : Nat) (hc : 0 < maxCols) :
    (comparisonRowMulti orig mod r maxCols)[0]? =
      some (if hasAnyDifferenceRow orig.data mod.data r maxCols then
          .str ("[CHANGED] " ++ cvToString (cellAt orig.data r 0))
        else cellAt orig.data r 0) := by
  obtain ⟨k, rfl⟩ : ∃ k, maxCols = k + 1 := ⟨maxCols - 1, by omega⟩
  unfold comparisonRowMulti
  rw [List.range_succ_eq_map, List.flatMap_cons]
  by_cases hdiff : hasAnyDifferenceRow orig.data mod.data r (k + 1) <;> simp [hdiff]

/-- C7: in both layouts, the data row for source row `r` carries the
column-0 label from the original matrix, prefixed with `"[CHANGED] "`
iff some column `c ≥ 1` of the bounding box differs at row `r`, and
unmodified otherwise. -/
theorem C7_rowTagging (orig mod : JSSheet) (r : Nat)
    (hr : r < maxRowsOf orig.data mod.data) (hc : 0 < maxColsOf orig.data mod.data) :
    ∃ rowS rowM,
      (createComparisonDataSingleCell orig mod)[7 + r]? = some rowS ∧
      (createComparisonDataMultiCell orig mod)[7 + r]? = some rowM ∧
      ((∃ c, 1 ≤ c ∧ c < maxColsOf orig.data mod.data ∧
          valuesAreDifferent (cellAt orig.data r c) (cellAt mod.data r c) = true) →
        rowS[0]? = some (.str ("[CHANGED] " ++ cvToString (cellAt orig.data r 0))) ∧
        rowM[0]? = some (.str ("[CHANGED] " ++ cvToString (cellAt orig.data r 0)))) ∧
      ((¬∃ c, 1 ≤ c ∧ c < maxColsOf orig.data mod.data ∧
          valuesAreDifferent (cellAt orig.data r c) (cellAt mod.data r c) = true) →
        rowS[0]? = some (cellAt orig.data r 0) ∧
        rowM[0]? = some (cellAt orig.data r 0)) := by
  refine ⟨_, _, single_data_row orig mod r hr, multi_data_row orig mod r hr, ?_, ?_⟩
  · intro hex
    have hd : hasAnyDifferenceRow orig.data mod.data r (maxColsOf orig.data mod.data) = true :=
      (hasAnyDifferenceRow_iff _ _ _ _).mpr hex
    rw [comparisonRowSingle_head orig mod r _ hc, comparisonRowMulti_head orig mod r _ hc, hd]
    exact ⟨by simp, by simp⟩
  · intro hnex
    have hd : hasAnyDifferenceRow orig.data mod.data r (maxColsOf orig.data mod.data) = false := by
      rw [← Bool.not_eq_true]
      intro hcon
      exact hnex ((hasAnyDifferenceRow_iff _ _ _ _).mp hcon)
    rw [comparisonRowSingle_head orig mod r _ hc, comparisonRowMulti_head orig mod r _ hc, hd]
    exact ⟨by simp, by simp⟩

/-- C7 witness: a concrete row whose only difference is in column 2 gets
the tag, and the single layout exposes it at row 7, column 0. -/
theorem C7_witness :
    (∃ c, 1 ≤ c ∧ c < maxColsOf [[CellValue.str "Revenue", CellValue.num 100, CellValue.num 5]]
        [[CellValue.str "Revenue", CellValue.num 100, CellValue.num 7]] ∧
      valuesAreDifferent
        (cellAt [[CellValue.str "Revenue", CellValue.num 100, CellValue.num 5]] 0 c)
        (cellAt [[CellValue.str "Revenue", CellValue.num 100, CellValue.num 7]] 0 c) = true) ∧
    ∃ rowS rowM,
      (createComparisonDataSingleCell
        ⟨[[CellValue.str "Revenue", CellValue.num 100, CellValue.num 5]], fun _ _ => none⟩
        ⟨[[CellValue.str "Revenue", CellValue.num 100, CellValue.num 7]], fun _ _ => none⟩)[7 + 0]? =
        some rowS ∧
      (createComparisonDataMultiCell
        ⟨[[CellValue.str "Revenue", CellValue.num 100, CellValue.num 5]], fun _ _ => none⟩
        ⟨[[CellValue.str "Revenue", CellValue.num 100, CellValue.num 7]], fun _ _ => none⟩)[7 + 0]? =
        some rowM ∧
      ((∃ c, 1 ≤ c ∧ c < maxColsOf [[CellValue.str "Revenue", CellValue.num 100, CellValue.num 5]]
          [[CellValue.str "Revenue", CellValue.num 100, CellValue.num 7]] ∧
        valuesAreDifferent
          (cellAt [[CellValue.str "Revenue", CellValue.num 100, CellValue.num 5]] 0 c)
          (cellAt [[CellValue.str "Revenue", CellValue.num 100, CellValue.num 7]] 0 c) = true) →
        rowS[0]? = some (.str ("[CHANGED] " ++
          cvToString (cellAt [[CellValue.str "Revenue", CellValue.num 100, CellValue.num 5]] 0 0))) ∧
        rowM[0]? = some (.str ("[CHANGED] " ++
          cvToString (cellAt [[CellValue.str "Revenue", CellValue.num 100, CellValue.num 5]] 0 0)))) ∧
      ((¬∃ c, 1 ≤ c ∧ c < maxColsOf [[CellValue.str "Revenue", CellValue.num 100, CellValue.num 5]]
          [[CellValue.str "Revenue", CellValue.num 100, CellValue.num 7]] ∧
        valuesAreDifferent
          (cellAt [[CellValue.str "Revenue", CellValue.num 100, CellValue.num 5]] 0 c)
          (cellAt [[CellValue.str "Revenue", CellValue.num 100, CellValue.num 7]] 0 c) = true) →
        rowS[0]? = some (cellAt [[CellValue.str "Revenue", CellValue.num 100, CellValue.num 5]] 0 0) ∧
        rowM[0]? = some (cellAt [[CellValue.str "Revenue", CellValue.num 100, CellValue.num 5]] 0 0)) :=
  ⟨⟨2, by decide, by decide, by decide⟩,
   C7_rowTagging
     ⟨[[CellValue.str "Revenue", CellValue.num 100, CellValue.num 5]], fun _ _ => none⟩
     ⟨[[CellValue.str "Revenue", CellValue.num 100, CellValue.num 7]], fun _ _ => none⟩ 0
     (by decide) (by decide)⟩

/-! ## C10 — header lookup reads the original workbook -/

/-- C10 counterexample: changing **only** the modified workbook's header
row (row 0) can change the renderer's classification of a cell *inside
that row*: replacing the modified header cell `"x"` by the bare fraction
`0.055` flips its own composite classification to percentage via the
value heuristic. -/
theorem C10_counterexample :
    modifiedClassificationAt ⟨[[.str "h", .str "x"]], fun _ _ => none⟩
      ⟨[[.str "h", .str "x"]], fun _ _ => none⟩ 0 1 = false ∧
    modifiedClassificationAt ⟨[[.str "h", .str "x"]], fun _ _ => none⟩
      ⟨[[.str "h", .num (mkRat 55 1000)]], fun _ _ => none⟩ 0 1 = true ∧
    ([[CellValue.str "h", CellValue.str "x"]].set 0 [CellValue.str "h", .num (mkRat 55 1000)]) =
      [[CellValue.str "h", CellValue.num (mkRat 55 1000)]] := by
  exact ⟨by decide, by decide, by decide⟩

/-- C10 (amended): both renderers classify each side against the header
cell of row 0 of the **original** workbook's sheet (last two conjuncts
are definitional); consequently replacing the modified workbook's header
row leaves the composite classification of every cell in rows `r ≥ 1`
unchanged — a percentage header present only in the modified workbook
never affects the classification of the cells below it. -/
theorem C10_headerFromOriginal (orig mod : JSSheet) (newHeaderRow : List CellValue)
    (r c : Nat) (hr : 1 ≤ r) :
    modifiedClassificationAt orig ⟨mod.data.set 0 newHeaderRow, mod.fmt⟩ r c =
      modifiedClassificationAt orig mod r c ∧
    modifiedClassificationAt orig mod r c =
      cellIsPercentage (cellAt mod.data r c) (mod.fmt r c) (rawCell orig.data 0 c) ∧
    originalClassificationAt orig r c =
      cellIsPercentage (cellAt orig.data r c) (orig.fmt r c) (rawCell orig.data 0 c) := by
  refine ⟨?_, rfl, rfl⟩
  unfold modifiedClassificationAt
  have hcell : cellAt (mod.data.set 0 newHeaderRow) r c = cellAt mod.data r c := by
    have hrow : (mod.data.set 0 newHeaderRow).get? r = mod.data.get? r := by
      rw [List.get?_eq_getElem?, List.get?_eq_getElem?,
        List.getElem?_set_ne (show (0 : Nat) ≠ r by omega)]
    unfold cellAt rawCell
    rw [hrow]
  rw [hcell]

/-- C10 witness: replacing the modified header row by `"Rate %"` leaves
the row-1 classification unchanged. -/
theorem C10_witness :
    modifiedClassificationAt ⟨[[CellValue.str "h"]], fun _ _ => none⟩
      ⟨([[CellValue.str "h"], [CellValue.num 1]] :
          List (List CellValue)).set 0 [CellValue.str "Rate %"], fun _ _ => none⟩ 1 0 =
      modifiedClassificationAt ⟨[[CellValue.str "h"]], fun _ _ => none⟩
        ⟨[[CellValue.str "h"], [CellValue.num 1]], fun _ _ => none⟩ 1 0 :=
  (C10_headerFromOriginal ⟨[[CellValue.str "h"]], fun _ _ => none⟩
    ⟨[[CellValue.str "h"], [CellValue.num 1]], fun _ _ => none⟩
    [CellValue.str "Rate %"] 1 0 (by decide)).1
